import Mathlib

/-!
Verification of the ios-sim-mcp repository (a Model Context Protocol server
driving the iOS Simulator).  The TypeScript sources are shallowly embedded:

* JavaScript strings become Lean `String`s (`toLowerCase` is modelled on the
  ASCII range, which is what every label and search string in the repository
  uses); string truthiness (`if (s)`) becomes `s ≠ ""` and nullable strings
  become `Option String`.
* JavaScript numbers become `ℚ` (exact arithmetic); `Math.round` becomes
  `jsRound`, i.e. `⌊q + 1/2⌋`, which agrees with JavaScript on all inputs.
* Fallible operations become `Except String α`, a thrown `Error(msg)` being
  `.error msg`, and the external command actually issued by the success path
  is part of the returned value, so "no command is issued on the error path"
  is visible in the result type.
* Child processes and the MCP transport are outside the program; an
  `execAsync` invocation outcome is modelled as either a resolution carrying
  the captured `stdout`/`stderr` pair (child exited zero) or a rejection
  carrying the exec error of a failing child (promisified `exec` rejects on
  non-zero exit no matter what was printed), and each dispatch case body is
  abstracted as an `Except`-valued outcome.
-/

/-! ## ASCII-range model of JavaScript `toLowerCase` and `includes` -/

/-- Lowercase one character, ASCII range only (JS `toLowerCase` restricted to
the labels this server handles). -/
def lowerChar (c : Char) : Char :=
  if 'A' ≤ c ∧ c ≤ 'Z' then Char.ofNat (c.toNat + 32) else c

/-- Character list of a string with every character lowercased. -/
def lowerStr (s : String) : List Char := s.data.map lowerChar

/-- Boolean prefix test on character lists. -/
def listPrefixOf : List Char → List Char → Bool
  | [], _ => true
  | _ :: _, [] => false
  | a :: as, b :: bs => a == b && listPrefixOf as bs

/-- Boolean substring test: `containsSub hay needle` is JS `hay.includes(needle)`. -/
def containsSub : List Char → List Char → Bool
  | [], needle => listPrefixOf needle []
  | a :: t, needle => listPrefixOf needle (a :: t) || containsSub t needle

/-- Case-insensitive substring test used by `findElements`:
JS `hay.toLowerCase().includes(needle.toLowerCase())`. -/
def ciContains (hay needle : String) : Bool :=
  containsSub (lowerStr hay) (lowerStr needle)

theorem listPrefixOf_iff (as bs : List Char) : listPrefixOf as bs = true ↔ as <+: bs := by
  induction as generalizing bs with
  | nil => simp [listPrefixOf]
  | cons a as ih =>
    cases bs with
    | nil => simp [listPrefixOf]
    | cons b bs =>
      simp only [listPrefixOf, Bool.and_eq_true, beq_iff_eq, ih, List.cons_prefix_cons]

theorem containsSub_iff (hay needle : List Char) :
    containsSub hay needle = true ↔ needle <:+: hay := by
  induction hay with
  | nil =>
    simp only [containsSub, listPrefixOf_iff, List.prefix_nil, List.infix_nil]
  | cons a t ih =>
    simp only [containsSub, Bool.or_eq_true, listPrefixOf_iff, ih, List.infix_cons_iff]

/-! ## Data model (`src/idb.ts`) -/

/-- Bounding rectangle of a UI element (`frame` in `src/idb.ts`). -/
structure Frame where
  x : ℚ
  y : ℚ
  width : ℚ
  height : ℚ
deriving DecidableEq, Repr

/-- Flattened UI element record (`UIElement` in `src/idb.ts`); the flattened
record carries no children field. -/
structure UIElement where
  type : String
  label : Option String
  value : Option String
  frame : Frame
  enabled : Bool
deriving DecidableEq, Repr

/-- Device record (`Simulator` in `src/idb.ts`). -/
structure Simulator where
  udid : String
  name : String
  state : String
  type : String
  os_version : String
deriving DecidableEq, Repr

/-! ## Element search (`findElements` in `src/idb.ts`) -/

/-- Search predicate of `findElements`:
`el.label?.toLowerCase().includes(label.toLowerCase())`, which is `false`
when the label is `null` (the optional chain short-circuits). -/
def labelMatches (needle : String) (el : UIElement) : Bool :=
  match el.label with
  | none => false
  | some l => ciContains l needle

/-- Element search over an already-flattened snapshot (`findElements` in
`src/idb.ts` with the `describeScreen` call factored out as the input list). -/
def findElements (elements : List UIElement) (label : String) : List UIElement :=
  elements.filter (labelMatches label)

/-- Specification-side matching relation: the element has a (non-null) label
and the lowercased search string occurs inside the lowercased label. -/
def SpecMatches (needle : String) (el : UIElement) : Prop :=
  ∃ l, el.label = some l ∧ lowerStr needle <:+: lowerStr l

theorem labelMatches_iff (needle : String) (el : UIElement) :
    labelMatches needle el = true ↔ SpecMatches needle el := by
  unfold labelMatches SpecMatches
  cases h : el.label with
  | none => simp
  | some l => simp [ciContains, containsSub_iff]

/-! ## Accessibility tree, `parseElement` and `flattenElements` (`src/idb.ts`) -/

/-- Parsed accessibility-tree node: the fields of `UIElement` plus the
optional child list that `parseElement` produces and `flattenElements`
strips. -/
inductive PElem where
  | mk (type : String) (label : Option String) (value : Option String)
       (frame : Frame) (enabled : Bool) (children : Option (List PElem))

def PElem.type : PElem → String
  | .mk t _ _ _ _ _ => t

def PElem.label : PElem → Option String
  | .mk _ l _ _ _ _ => l

def PElem.children : PElem → Option (List PElem)
  | .mk _ _ _ _ _ c => c

/-- Record pushed by `flattenElements` for a kept node:
`const { children, ...rest } = el` — every field except the child list. -/
def stripChildren : PElem → UIElement
  | .mk t l v f e _ => ⟨t, l, v, f, e⟩

/-- Element types kept by `flattenElements` even without a label. -/
def keptTypes : List String :=
  ["Button", "TextField", "StaticText", "Image", "Switch", "Slider", "Application"]

/-- JS truthiness of a nullable string: non-null and non-empty. -/
def strTruthy : Option String → Bool
  | none => false
  | some s => !(s == "")

/-- Keep condition of `flattenElements`:
`el.label || ["Button", ...].includes(el.type)`. -/
def keepElem (e : PElem) : Bool :=
  strTruthy e.label || keptTypes.contains e.type

/-- Flattening of the element tree (`flattenElements` in `src/idb.ts`): for
each node, push the node without its children when the keep condition holds,
then recurse into the children, then continue with the later siblings.  The
JS accumulator argument becomes list concatenation. -/
def flattenElements : List PElem → List UIElement
  | [] => []
  | .mk t l v f e none :: rest =>
    (if keepElem (.mk t l v f e none) then [stripChildren (.mk t l v f e none)] else []) ++
      flattenElements rest
  | .mk t l v f e (some cs) :: rest =>
    (if keepElem (.mk t l v f e (some cs)) then [stripChildren (.mk t l v f e (some cs))] else []) ++
      (flattenElements cs ++ flattenElements rest)

/-- Pre-order enumeration of a forest: each node before its children,
children before later siblings. -/
def preorderForest : List PElem → List PElem
  | [] => []
  | .mk t l v f e none :: rest =>
    .mk t l v f e none :: preorderForest rest
  | .mk t l v f e (some cs) :: rest =>
    .mk t l v f e (some cs) :: (preorderForest cs ++ preorderForest rest)

/-- Flattening is exactly the keep-filtered pre-order traversal with child
lists stripped. -/
theorem flattenElements_eq_preorder : ∀ ts : List PElem,
    flattenElements ts = ((preorderForest ts).filter keepElem).map stripChildren
  | [] => by
    rw [flattenElements, preorderForest]
    rfl
  | .mk t l v f e none :: rest => by
    rw [flattenElements, preorderForest, List.filter_cons]
    cases h : keepElem (.mk t l v f e none) <;>
      simp [h, flattenElements_eq_preorder rest]
  | .mk t l v f e (some cs) :: rest => by
    rw [flattenElements, preorderForest, List.filter_cons]
    cases h : keepElem (.mk t l v f e (some cs)) <;>
      simp [h, flattenElements_eq_preorder cs, flattenElements_eq_preorder rest]

/-! ## Raw tool output and `parseElement` (`src/idb.ts`) -/

/-- Raw JSON node as emitted by `idb ui describe-all --nested`: every field
that `parseElement` reads, each possibly absent. -/
inductive RawNode where
  | mk (type : Option String) (role : Option String) (axLabel : Option String)
       (axValue : Option String) (frame : Option Frame) (enabled : Option Bool)
       (children : Option (List RawNode))

/-- JS `a || b` on a nullable string against a string default: an absent or
empty string falls through to the default. -/
def jsOrStr (a : Option String) (b : String) : String :=
  match a with
  | none => b
  | some s => if s = "" then b else s

/-- JS `a || null` on a nullable string: an empty string becomes `null`. -/
def jsOrNull (a : Option String) : Option String :=
  match a with
  | none => none
  | some s => if s = "" then none else some s

mutual

/-- Conversion of a raw node to the typed record (`parseElement` in
`src/idb.ts`): `type: raw.type || raw.role || "Unknown"`,
`label: raw.AXLabel || null`, `value: raw.AXValue || null`,
`frame: raw.frame || {x:0,y:0,width:0,height:0}`, `enabled: raw.enabled ?? true`,
`children: raw.children?.map(parseElement)`. -/
def parseElement : RawNode → PElem
  | .mk t r l v f e none =>
    .mk (jsOrStr t (jsOrStr r "Unknown")) (jsOrNull l) (jsOrNull v)
      (f.getD ⟨0, 0, 0, 0⟩) (e.getD true) none
  | .mk t r l v f e (some cs) =>
    .mk (jsOrStr t (jsOrStr r "Unknown")) (jsOrNull l) (jsOrNull v)
      (f.getD ⟨0, 0, 0, 0⟩) (e.getD true) (some (parseForest cs))

/-- Map of `parseElement` over a raw child list. -/
def parseForest : List RawNode → List PElem
  | [] => []
  | x :: xs => parseElement x :: parseForest xs

end

/-- Raw JSON value handed to `JSON.parse` in `describeScreen`: either an
array of nodes or a single node. -/
inductive RawTop where
  | arr (xs : List RawNode)
  | single (x : RawNode)

/-- Parsing step of `describeScreen`:
`Array.isArray(raw) ? raw.map(parseElement) : [parseElement(raw)]`. -/
def parseTop : RawTop → List PElem
  | .arr xs => parseForest xs
  | .single x => parseForest [x]

/-- Pure core of `describeScreen` (`src/idb.ts`): parse every raw node
(wrapping a non-array value in a one-element list) and flatten. -/
def describeScreen (rt : RawTop) : List UIElement :=
  flattenElements (parseTop rt)

/-! ## Tap by label (`tapElement` in `src/idb.ts`) -/

/-- JavaScript `Math.round`: `⌊q + 1/2⌋` on every input. -/
def jsRound (q : ℚ) : ℤ := ⌊q + 1 / 2⌋

/-- Interpolation of a nullable string into a template literal: `null`
prints as the text `null`. -/
def jsShowLabel : Option String → String
  | none => "null"
  | some s => s

/-- Error message thrown by `tapElement` when no element matches. -/
def noElementFoundMsg (label : String) : String :=
  "No element found with label containing \"" ++ label ++
    "\". Use describe_screen to see all available elements and their labels, or use find_elements to search with different text."

/-- Outcome of `tapElement`: either the thrown error (no tap command issued,
the constructor carries no coordinates) or the single issued
`idb ui tap centerX centerY` command together with the confirmation string. -/
inductive TapElementResult where
  | err (msg : String)
  | tapped (centerX centerY : ℤ) (msg : String)
deriving DecidableEq, Repr

/-- Tap by label over a flattened snapshot (`tapElement` in `src/idb.ts`):
search, throw on zero matches, otherwise tap the rounded centroid of the
frame of the first match. -/
def tapElement (elements : List UIElement) (label : String) : TapElementResult :=
  match findElements elements label with
  | [] => .err (noElementFoundMsg label)
  | el :: _ =>
    let centerX := jsRound (el.frame.x + el.frame.width / 2)
    let centerY := jsRound (el.frame.y + el.frame.height / 2)
    .tapped centerX centerY
      ("Tapped \"" ++ jsShowLabel el.label ++ "\" at (" ++ toString centerX ++ ", " ++
        toString centerY ++ ")")

/-! ## Device resolution (`getBootedSimulator`, `getUdid`) -/

/-- First device in `Booted` state (`getBootedSimulator` in `src/idb.ts`,
with the parsed device list as input): `simulators.find(s => s.state === "Booted")`. -/
def getBootedSimulator (sims : List Simulator) : Option Simulator :=
  sims.find? (fun s => s.state == "Booted")

/-- Message of `noBootedSimulatorError` in `src/idb.ts`. -/
def noBootedSimulatorMsg : String :=
  "No booted simulator found. Use list_simulators to find available simulators, then boot_simulator with a UDID."

/-- Resolution of the udid of the booted device when no identifier was provided. -/
def resolveBooted (sims : List Simulator) : Except String String :=
  match getBootedSimulator sims with
  | some b => .ok b.udid
  | none => .error noBootedSimulatorMsg

/-- Device-identifier resolution (`getUdid` in the dispatcher): a provided
truthy identifier is used as-is, otherwise the booted device is looked up and
its absence throws `noBootedSimulatorError()`. -/
def getUdid (provided : Option String) (sims : List Simulator) : Except String String :=
  match provided with
  | some u => if u ≠ "" then .ok u else resolveBooted sims
  | none => resolveBooted sims

/-- Shape of every operation taking an optional device identifier: resolve
the udid first, and only then build the underlying command from it.  On a
resolution error the command function is never applied. -/
def runWithUdid {α : Type} (provided : Option String) (sims : List Simulator)
    (cmd : String → α) : Except String α :=
  (getUdid provided sims).map cmd

/-! ## String splitting and trimming (JS `split`/`trim`, structural model) -/

/-- Split of a character list at every occurrence of a one-character
separator (JS `String.prototype.split` with a single-character separator). -/
def splitOnChar (sep : Char) : List Char → List (List Char)
  | [] => [[]]
  | c :: rest =>
    if c = sep then [] :: splitOnChar sep rest
    else
      match splitOnChar sep rest with
      | [] => [[c]]
      | g :: gs => (c :: g) :: gs

/-- Characters stripped by trimming (the ASCII whitespace this tool output
contains). -/
def trimList (l : List Char) : List Char :=
  ((l.dropWhile Char.isWhitespace).reverse.dropWhile Char.isWhitespace).reverse

/-- JS `String.prototype.trim` (ASCII whitespace). -/
def trimStr (s : String) : String := ⟨trimList s.data⟩

/-- JS `output.split("\n")`. -/
def splitLines (s : String) : List String := (splitOnChar '\n' s.data).map String.mk

/-- JS `line.split("|")`. -/
def splitPipes (s : String) : List String := (splitOnChar '|' s.data).map String.mk

/-! ## Command executor (`idb` in `src/idb.ts`) -/

/-- Outcome of `execAsync(...)` as the executor observes it: the promisified
`exec` resolves with the captured `stdout`/`stderr` pair when the child exits
with status zero, and rejects with an exec error — which also carries the
captured streams — whenever the child itself fails, no matter what it
printed. -/
inductive ExecResult where
  | resolved (stdout stderr : String)
  | rejected (msg stdout stderr : String)
deriving DecidableEq, Repr

/-- Captured standard output of the invocation, on either path. -/
def ExecResult.stdout : ExecResult → String
  | .resolved o _ => o
  | .rejected _ o _ => o

/-- Whether the child process reported failure (non-zero exit). -/
def ExecResult.failed : ExecResult → Bool
  | .resolved _ _ => false
  | .rejected _ _ _ => true

/-- The executor (`idb` in `src/idb.ts`) applied to the invocation outcome:
`await execAsync(...)` re-raises the rejection of a failing child before the
destructuring completes (nothing in `idb` catches it), and on a resolved
invocation
`if (stderr && !stdout) throw new Error(stderr); return stdout.trim()` runs. -/
def idbExec : ExecResult → Except String String
  | .rejected msg _ _ => .error msg
  | .resolved stdout stderr =>
    if stderr ≠ "" ∧ stdout = "" then .error stderr else .ok (trimStr stdout)

/-! ## Device-listing parser (`parseListTargets` in `src/idb.ts`) -/

/-- Conversion of one listing line: split on `|`, trim every field (JS
`parts[i] || ""` defaults a missing column to the empty string; a present but
empty column also yields the empty string, matching the `getD` default). -/
def lineToSimulator (line : String) : Simulator :=
  let parts := (splitPipes line).map trimStr
  { name := parts.getD 0 "", udid := parts.getD 1 "", state := parts.getD 2 "",
    type := parts.getD 3 "", os_version := parts.getD 4 "" }

/-- Parser of `idb list-targets` output (`parseListTargets` in `src/idb.ts`):
split into lines, drop the lines that are blank after trimming
(`.filter((l) => l.trim())`), convert each remaining line. -/
def parseListTargets (output : String) : List Simulator :=
  ((splitLines output).filter fun l => trimStr l ≠ "").map lineToSimulator

/-! ## Mouse-driven variant (`src/index.ts`): window bounds and coordinate map -/

/-- On-screen window rectangle returned by `getSimulatorWindowBounds`. -/
structure WBounds where
  x : ℚ
  y : ℚ
  width : ℚ
  height : ℚ
deriving DecidableEq, Repr

/-- Simulator screen pixel dimensions returned by `getSimulatorScreenSize`. -/
structure ScreenWH where
  width : ℚ
  height : ℚ
deriving DecidableEq, Repr

/-- Fixed window-chrome offset assumed by the mouse-driven variant. -/
def titleBarHeight : ℚ := 28

/-- Horizontal part of the coordinate map:
`Math.round(bounds.x + x * (bounds.width / screenSize.width))`. -/
def mapPointX (b : WBounds) (s : ScreenWH) (x : ℚ) : ℤ :=
  jsRound (b.x + x * (b.width / s.width))

/-- Vertical part of the coordinate map:
`Math.round(bounds.y + titleBarHeight + y * ((bounds.height - titleBarHeight) / screenSize.height))`. -/
def mapPointY (b : WBounds) (s : ScreenWH) (y : ℚ) : ℤ :=
  jsRound (b.y + titleBarHeight + y * ((b.height - titleBarHeight) / s.height))

/-- Message thrown by the mouse-driven `tap`/`swipe` when the window bounds
query returned nothing. -/
def noBoundsMsg : String :=
  "Could not get Simulator window bounds. Is Simulator running?"

/-- Mouse-driven `tap` (`src/index.ts`): with no window bounds it throws and
issues nothing; otherwise it issues one `cliclick c:x,y` at the mapped point
(the success value is that issued click point; the confirmation string is
not modelled). -/
def tapMouse (boundsQuery : Option WBounds) (s : ScreenWH) (x y : ℚ) :
    Except String (ℤ × ℤ) :=
  match boundsQuery with
  | none => .error noBoundsMsg
  | some b =>
    let contentHeight := b.height - titleBarHeight
    let scaleX := b.width / s.width
    let scaleY := contentHeight / s.height
    let screenX := jsRound (b.x + x * scaleX)
    let screenY := jsRound (b.y + titleBarHeight + y * scaleY)
    .ok (screenX, screenY)

/-- Mouse-driven `swipe` (`src/index.ts`): same bounds check and the same
linear map applied to both endpoints of the issued drag. -/
def swipeMouse (boundsQuery : Option WBounds) (s : ScreenWH)
    (startX startY endX endY : ℚ) : Except String ((ℤ × ℤ) × (ℤ × ℤ)) :=
  match boundsQuery with
  | none => .error noBoundsMsg
  | some b =>
    let contentHeight := b.height - titleBarHeight
    let scaleX := b.width / s.width
    let scaleY := contentHeight / s.height
    let screenStartX := jsRound (b.x + startX * scaleX)
    let screenStartY := jsRound (b.y + titleBarHeight + startY * scaleY)
    let screenEndX := jsRound (b.x + endX * scaleX)
    let screenEndY := jsRound (b.y + titleBarHeight + endY * scaleY)
    .ok ((screenStartX, screenStartY), (screenEndX, screenEndY))

/-! ## Protocol dispatcher (`CallToolRequestSchema` handler) -/

/-- Content item of an MCP response. -/
inductive ContentItem where
  | text (s : String)
  | image (data : String) (mime : String)
deriving DecidableEq, Repr

/-- MCP response envelope: content list plus error flag (the success paths
leave the flag unset, modelled as `false`). -/
structure CallResponse where
  content : List ContentItem
  isError : Bool
deriving DecidableEq, Repr

/-- Tool names of the switch cases of the dispatcher. -/
def knownTools : List String :=
  ["list_simulators", "boot_simulator", "shutdown_simulator", "screenshot",
   "launch_app", "terminate_app", "tap", "swipe", "type_text", "press_key",
   "press_button", "open_url", "list_apps", "get_screen_size",
   "describe_screen", "describe_point", "find_elements", "tap_element"]

/-- Dispatcher (`CallToolRequestSchema` handler): the switch body, with each
per-case operation abstracted as an `Except`-valued outcome (`.error msg` for a
thrown `Error(msg)`), the default case throwing `Unknown tool`, and the
surrounding `try`/`catch` turning every thrown error into an error-flagged
text response.  The function is total: no error escapes it. -/
def dispatchCall (opRun : String → Except String CallResponse) (name : String) :
    CallResponse :=
  match (if knownTools.contains name then opRun name
         else .error ("Unknown tool: " ++ name)) with
  | .ok r => r
  | .error msg => ⟨[.text ("Error: " ++ msg)], true⟩

/-! ## Concrete data used by the witnesses -/

/-- Concrete flattened button element with label `Sign In`. -/
def demoSignIn : UIElement := ⟨"Button", some "Sign In", none, ⟨147, 400, 100, 50⟩, true⟩

/-- Concrete flattened element with label `SIGN UP`. -/
def demoSignUp : UIElement := ⟨"StaticText", some "SIGN UP", none, ⟨20, 500, 80, 30⟩, true⟩

/-- Concrete flattened element with a `null` label. -/
def demoUnlabeled : UIElement := ⟨"Image", none, none, ⟨0, 0, 40, 40⟩, true⟩

/-- Concrete flattened snapshot. -/
def demoElements : List UIElement := [demoUnlabeled, demoSignIn, demoSignUp]

/-- Concrete parsed element tree: an unkept container node whose child is the
`Sign In` button. -/
def demoTree : List PElem :=
  [.mk "Other" none none ⟨0, 0, 390, 844⟩ true
    (some [.mk "Button" (some "Sign In") none ⟨147, 400, 100, 50⟩ true none])]

theorem demoTree_flatten : flattenElements demoTree = [demoSignIn] := by
  simp [demoTree, flattenElements, keepElem, strTruthy, PElem.label, PElem.type,
    keptTypes, stripChildren, demoSignIn]

/-! ## C1 -/

/-- C1: for every flattened element list and search label, `findElements`
returns exactly the elements whose label contains the search string as a
case-insensitive substring, in list order (the result is a sublist of the
input); elements with a `null` label are never matched; and searching
`sign` matches both the label `Sign In` and the label `SIGN UP`. -/
theorem find_elements_ci_substring_exact (els : List UIElement) (needle : String) :
    (∀ el, el ∈ findElements els needle ↔ el ∈ els ∧ SpecMatches needle el) ∧
    (findElements els needle).Sublist els ∧
    (∀ el, el ∈ findElements els needle → el.label ≠ none) ∧
    ciContains "Sign In" "sign" = true ∧ ciContains "SIGN UP" "sign" = true := by
  refine ⟨fun el => ?_, List.filter_sublist els, fun el h => ?_, by decide, by decide⟩
  · rw [findElements, List.mem_filter, labelMatches_iff]
  · rw [findElements, List.mem_filter, labelMatches_iff] at h
    obtain ⟨-, l, hl, -⟩ := h
    simp [hl]

/-- Witness for C1 at a concrete snapshot and the search string `sign`. -/
theorem find_elements_ci_substring_exact_witness :
    (demoSignIn ∈ demoElements ∧ SpecMatches "sign" demoSignIn) ∧
      demoSignIn.label ≠ none :=
  ⟨((find_elements_ci_substring_exact demoElements "sign").1 demoSignIn).mp (by decide),
   (find_elements_ci_substring_exact demoElements "sign").2.2.1 demoSignIn (by decide)⟩

/-! ## C2 -/

/-- C2: on a search label with zero matches, `tapElement` throws an error
whose message contains the searched label, and it never produces a tap
command (the error outcome carries no coordinates, so there is no fallback
to a default coordinate). -/
theorem tap_element_zero_matches_throws (els : List UIElement) (label : String)
    (h : findElements els label = []) :
    tapElement els label = .err (noElementFoundMsg label) ∧
    label.data <:+: (noElementFoundMsg label).data ∧
    ∀ x y msg, tapElement els label ≠ .tapped x y msg := by
  have ht : tapElement els label = .err (noElementFoundMsg label) := by
    unfold tapElement
    rw [h]
  refine ⟨ht, ?_, fun x y msg => by rw [ht]; simp⟩
  show ∃ s t, s ++ label.data ++ t = (noElementFoundMsg label).data
  refine ⟨"No element found with label containing \"".data,
    "\". Use describe_screen to see all available elements and their labels, or use find_elements to search with different text.".data, ?_⟩
  simp [noElementFoundMsg, String.data_append]

/-- Witness for C2: searching `Zelda` in the concrete snapshot matches
nothing and produces exactly the thrown error. -/
theorem tap_element_zero_matches_throws_witness :
    tapElement demoElements "Zelda" = .err (noElementFoundMsg "Zelda") ∧
      "Zelda".data <:+: (noElementFoundMsg "Zelda").data :=
  ⟨(tap_element_zero_matches_throws demoElements "Zelda" (by decide)).1,
   (tap_element_zero_matches_throws demoElements "Zelda" (by decide)).2.1⟩

/-! ## C3 -/

/-- C3: with at least one match, `tapElement` taps the rounded centroid of
the bounding box of the first match, and the flattened order it searches is
exactly the keep-filtered pre-order traversal of the element tree. -/
theorem tap_element_first_match_centroid (ts : List PElem) (label : String)
    (el : UIElement) (rest : List UIElement)
    (h : findElements (flattenElements ts) label = el :: rest) :
    tapElement (flattenElements ts) label =
      .tapped (jsRound (el.frame.x + el.frame.width / 2))
        (jsRound (el.frame.y + el.frame.height / 2))
        ("Tapped \"" ++ jsShowLabel el.label ++ "\" at (" ++
          toString (jsRound (el.frame.x + el.frame.width / 2)) ++ ", " ++
          toString (jsRound (el.frame.y + el.frame.height / 2)) ++ ")") ∧
    flattenElements ts = ((preorderForest ts).filter keepElem).map stripChildren ∧
    el ∈ flattenElements ts ∧ SpecMatches label el := by
  have hm : el ∈ findElements (flattenElements ts) label := by
    rw [h]
    exact List.mem_cons_self el rest
  rw [findElements, List.mem_filter, labelMatches_iff] at hm
  refine ⟨?_, flattenElements_eq_preorder ts, hm.1, hm.2⟩
  unfold tapElement
  rw [h]

/-- Witness for C3: in the concrete tree the `Sign In` button is the sole
match for `SIGN` and its centroid is tapped. -/
theorem tap_element_first_match_centroid_witness :
    tapElement (flattenElements demoTree) "SIGN" =
      .tapped (jsRound (demoSignIn.frame.x + demoSignIn.frame.width / 2))
        (jsRound (demoSignIn.frame.y + demoSignIn.frame.height / 2))
        ("Tapped \"" ++ jsShowLabel demoSignIn.label ++ "\" at (" ++
          toString (jsRound (demoSignIn.frame.x + demoSignIn.frame.width / 2)) ++ ", " ++
          toString (jsRound (demoSignIn.frame.y + demoSignIn.frame.height / 2)) ++ ")") ∧
      demoSignIn ∈ flattenElements demoTree :=
  ⟨(tap_element_first_match_centroid demoTree "SIGN" demoSignIn []
      (by rw [demoTree_flatten]; decide)).1,
   (tap_element_first_match_centroid demoTree "SIGN" demoSignIn []
      (by rw [demoTree_flatten]; decide)).2.2.1⟩

/-! ## C4 -/

/-- Concrete window bounds for the witnesses. -/
def demoBounds : WBounds := ⟨100, 50, 390, 872⟩

/-- Concrete simulator screen size for the witnesses. -/
def demoScreen : ScreenWH := ⟨390, 844⟩

/-- C4: the mouse-driven `tap` and `swipe` send their pointer commands
through the linear map `mapPointX`/`mapPointY` (subtract the title-bar
height from the window height, scale by window-dimension over
screen-dimension, add the window origin, plus the title bar on Y);
consequently point `(0, 0)` maps to the window origin plus title-bar offset
and the full screen width/height maps to the opposite content-area
corner, within rounding. -/
theorem mouse_map_linear_corners (b : WBounds) (s : ScreenWH)
    (x y sx sy ex ey : ℚ) (hw : s.width ≠ 0) (hh : s.height ≠ 0) :
    tapMouse (some b) s x y = .ok (mapPointX b s x, mapPointY b s y) ∧
    swipeMouse (some b) s sx sy ex ey =
      .ok ((mapPointX b s sx, mapPointY b s sy), (mapPointX b s ex, mapPointY b s ey)) ∧
    mapPointX b s 0 = jsRound b.x ∧
    mapPointY b s 0 = jsRound (b.y + titleBarHeight) ∧
    mapPointX b s s.width = jsRound (b.x + b.width) ∧
    mapPointY b s s.height = jsRound (b.y + b.height) := by
  refine ⟨rfl, rfl, ?_, ?_, ?_, ?_⟩
  · unfold mapPointX jsRound
    congr 1
    ring
  · unfold mapPointY jsRound
    congr 1
    ring
  · unfold mapPointX jsRound
    congr 1
    field_simp
  · unfold mapPointY jsRound titleBarHeight
    congr 1
    field_simp

/-- Witness for C4 at concrete window bounds and screen size: the full-screen
corner lands at the opposite window corner. -/
theorem mouse_map_linear_corners_witness :
    mapPointX demoBounds demoScreen demoScreen.width =
      jsRound (demoBounds.x + demoBounds.width) ∧
    mapPointY demoBounds demoScreen demoScreen.height =
      jsRound (demoBounds.y + demoBounds.height) ∧
    tapMouse (some demoBounds) demoScreen 200 400 =
      .ok (mapPointX demoBounds demoScreen 200, mapPointY demoBounds demoScreen 400) :=
  ⟨(mouse_map_linear_corners demoBounds demoScreen 200 400 0 0 0 0
      (by decide) (by decide)).2.2.2.2.1,
   (mouse_map_linear_corners demoBounds demoScreen 200 400 0 0 0 0
      (by decide) (by decide)).2.2.2.2.2,
   (mouse_map_linear_corners demoBounds demoScreen 200 400 0 0 0 0
      (by decide) (by decide)).1⟩

/-! ## C5 -/

/-- C5: with no device identifier provided, an operation resolves the udid of
the device in `Booted` state and proceeds with it; with no booted device it
fails with the descriptive error and the underlying command is never built
(the command function is not applied on the error path of `runWithUdid`). -/
theorem optional_udid_resolution {α : Type} (sims : List Simulator) (s : Simulator)
    (cmd : String → α) :
    (s ∈ sims → s.state = "Booted" → (∀ t ∈ sims, t.state = "Booted" → t = s) →
      getUdid none sims = .ok s.udid ∧ runWithUdid none sims cmd = .ok (cmd s.udid)) ∧
    ((∀ t ∈ sims, t.state ≠ "Booted") →
      getUdid none sims = .error noBootedSimulatorMsg ∧
      runWithUdid none sims cmd = .error noBootedSimulatorMsg) := by
  constructor
  · intro hs hb huniq
    have hfind : getBootedSimulator sims = some s := by
      unfold getBootedSimulator
      cases hf : sims.find? (fun t => t.state == "Booted") with
      | none => exact absurd (List.find?_eq_none.mp hf s hs) (by simp [hb])
      | some t =>
        have h1 := List.find?_some hf
        have h2 := List.mem_of_find?_eq_some hf
        simp only [beq_iff_eq] at h1
        rw [huniq t h2 h1]
    have hg : getUdid none sims = .ok s.udid := by
      unfold getUdid resolveBooted
      rw [hfind]
    refine ⟨hg, ?_⟩
    unfold runWithUdid
    rw [hg]
    rfl
  · intro hnone
    have hfind : getBootedSimulator sims = none := by
      unfold getBootedSimulator
      rw [List.find?_eq_none]
      intro t ht
      simp [hnone t ht]
    have hg : getUdid none sims = .error noBootedSimulatorMsg := by
      unfold getUdid resolveBooted
      rw [hfind]
    refine ⟨hg, ?_⟩
    unfold runWithUdid
    rw [hg]
    rfl

/-- Concrete booted device for the witnesses. -/
def demoBooted : Simulator := ⟨"UD2", "iPhone 15", "Booted", "simulator", "iOS 17.0"⟩

/-- Concrete shut-down device for the witnesses. -/
def demoShutdown : Simulator := ⟨"UD1", "iPhone 14", "Shutdown", "simulator", "iOS 16.4"⟩

/-- Concrete device list with exactly one booted device. -/
def demoSims : List Simulator := [demoShutdown, demoBooted]

/-- Witness for C5: on the concrete device list the booted udid is resolved
and the command receives it; on a list with no booted device the operation
fails with the descriptive error. -/
theorem optional_udid_resolution_witness :
    (getUdid none demoSims = .ok demoBooted.udid ∧
      runWithUdid none demoSims (fun u => "ui tap 10 20 --udid " ++ u) =
        .ok ("ui tap 10 20 --udid " ++ demoBooted.udid)) ∧
    (getUdid none [demoShutdown] = .error noBootedSimulatorMsg ∧
      runWithUdid none [demoShutdown] (fun u => "ui tap 10 20 --udid " ++ u) =
        .error noBootedSimulatorMsg) :=
  ⟨(optional_udid_resolution demoSims demoBooted _).1 (by decide) (by decide) (by decide),
   (optional_udid_resolution [demoShutdown] demoBooted _).2 (by decide)⟩

/-! ## C6 -/

/-- C6: whatever error an operation reports, the dispatcher returns a
response with the error flag set and the message text in a text content
item; an unknown operation name yields the same shape; a successful
response of a successful operation passes through unchanged.  `dispatchCall` is a total
function, so no error propagates past the dispatch boundary. -/
theorem dispatch_errors_to_response (opRun : String → Except String CallResponse)
    (name msg : String) (r : CallResponse) :
    (knownTools.contains name = true → opRun name = .error msg →
      dispatchCall opRun name = ⟨[.text ("Error: " ++ msg)], true⟩) ∧
    (knownTools.contains name = false →
      dispatchCall opRun name = ⟨[.text ("Error: " ++ ("Unknown tool: " ++ name))], true⟩) ∧
    (knownTools.contains name = true → opRun name = .ok r →
      dispatchCall opRun name = r) := by
  refine ⟨fun hk he => ?_, fun hk => ?_, fun hk ho => ?_⟩ <;> unfold dispatchCall
  · rw [if_pos hk, he]
  · have hn : ¬ (knownTools.contains name = true) := by
      rw [hk]
      simp
    rw [if_neg hn]
  · rw [if_pos hk, ho]

/-- Operation table whose every call throws, for the C6 witness. -/
def demoOpsFail : String → Except String CallResponse := fun _ => .error "boom"

/-- Witness for C6: a thrown `boom` on the known tool `tap` and an unknown
tool name both produce error-flagged text responses. -/
theorem dispatch_errors_to_response_witness :
    dispatchCall demoOpsFail "tap" = ⟨[.text ("Error: " ++ "boom")], true⟩ ∧
    dispatchCall demoOpsFail "frobnicate" =
      ⟨[.text ("Error: " ++ ("Unknown tool: " ++ "frobnicate"))], true⟩ :=
  ⟨(dispatch_errors_to_response demoOpsFail "tap" "boom" ⟨[], false⟩).1 (by decide) rfl,
   (dispatch_errors_to_response demoOpsFail "frobnicate" "boom" ⟨[], false⟩).2.1 (by decide)⟩

/-! ## C7 -/

/-- Counterexample to C7 as stated: a child process that reports failure
after printing usable standard output makes `execAsync` reject on the
non-zero exit, so the executor raises the exec error instead of returning
the trimmed output — it neither raises only on failure-with-no-usable-output
nor returns whenever usable standard output exists. -/
theorem idb_exec_claim_counterexample :
    ¬ (∀ r : ExecResult, r.stdout ≠ "" → idbExec r = .ok (trimStr r.stdout)) ∧
    (ExecResult.rejected "Command failed: idb list-targets"
      "iPhone 15 | UD-1 | Booted" "").failed = true ∧
    (ExecResult.rejected "Command failed: idb list-targets"
      "iPhone 15 | UD-1 | Booted" "").stdout ≠ "" ∧
    idbExec (.rejected "Command failed: idb list-targets"
      "iPhone 15 | UD-1 | Booted" "") = .error "Command failed: idb list-targets" := by
  refine ⟨fun h => ?_, by decide, by decide, rfl⟩
  have h0 := h (.rejected "Command failed: idb list-targets"
    "iPhone 15 | UD-1 | Booted" "") (by decide)
  simp [idbExec] at h0

/-- C7 amended: the executor propagates the exec error whenever the child
process itself fails, regardless of captured output; on a resolved
(zero-exit) invocation it raises exactly when the process produced error
output and no usable standard output (and the raised message is that error
output), and whenever a resolved invocation has usable standard output that
output is returned trimmed without raising. -/
theorem idb_exec_amended (out err msg : String) :
    (∀ o e, idbExec (.rejected msg o e) = .error msg) ∧
    ((∃ m, idbExec (.resolved out err) = .error m) ↔ err ≠ "" ∧ out = "") ∧
    (err ≠ "" ∧ out = "" → idbExec (.resolved out err) = .error err) ∧
    (out ≠ "" → idbExec (.resolved out err) = .ok (trimStr out)) := by
  have hres : idbExec (.resolved out err) =
      if err ≠ "" ∧ out = "" then .error err else .ok (trimStr out) := rfl
  by_cases h : err ≠ "" ∧ out = ""
  · refine ⟨fun o e => rfl, ⟨fun _ => h, fun _ => ⟨err, by rw [hres, if_pos h]⟩⟩,
      fun _ => by rw [hres, if_pos h], fun hs => absurd h.2 hs⟩
  · refine ⟨fun o e => rfl, ⟨?_, fun hc => absurd hc h⟩, fun hc => absurd hc h,
      fun _ => by rw [hres, if_neg h]⟩
    rintro ⟨m, hm⟩
    rw [hres, if_neg h] at hm
    exact Except.noConfusion hm

/-- Witness for the amended C7: a failing child propagates the exec error
even with usable standard output; a resolved stderr-only invocation raises
the stderr text; a resolved invocation with output returns it trimmed. -/
theorem idb_exec_amended_witness :
    idbExec (.rejected "Command failed: idb boot" "partial output" "warning") =
      .error "Command failed: idb boot" ∧
    idbExec (.resolved "" "No Companion Connected") = .error "No Companion Connected" ∧
    idbExec (.resolved " ok \n" "") = .ok (trimStr " ok \n") :=
  ⟨(idb_exec_amended "partial output" "warning" "Command failed: idb boot").1
      "partial output" "warning",
   (idb_exec_amended "" "No Companion Connected" "m").2.2.1 (by decide),
   (idb_exec_amended " ok \n" "" "m").2.2.2 (by decide)⟩

/-! ## C8 -/

/-- C8: when the window-bounds query returns nothing, the mouse-driven `tap`
and `swipe` fail with the descriptive error and never reach the success
constructor that carries the issued pointer command; the functions are not
recursive, so no retry occurs. -/
theorem mouse_ops_no_bounds (s : ScreenWH) (x y sx sy ex ey : ℚ) :
    tapMouse none s x y = .error noBoundsMsg ∧
    swipeMouse none s sx sy ex ey = .error noBoundsMsg ∧
    (∀ p, tapMouse none s x y ≠ .ok p) ∧
    (∀ q, swipeMouse none s sx sy ex ey ≠ .ok q) := by
  refine ⟨rfl, rfl, fun p hp => ?_, fun q hq => ?_⟩
  · simp [tapMouse] at hp
  · simp [swipeMouse] at hq

/-! ## C9 -/

/-- C9: the device-listing parser is total (a Lean function on all of
`String`): it produces one record per line that is non-blank after trimming,
each line split on `|` into trimmed fields through `lineToSimulator`, and
each of the `udid`/`state`/`type`/`os_version` columns defaults to the empty
string when missing (the `name` column always exists, a split being
non-empty). -/
theorem parse_list_targets_total (output : String) :
    (parseListTargets output).length =
      ((splitLines output).filter fun l => trimStr l ≠ "").length ∧
    (∀ sim ∈ parseListTargets output,
      ∃ line ∈ splitLines output, trimStr line ≠ "" ∧ sim = lineToSimulator line) ∧
    (∀ line, ((splitPipes line).map trimStr).length ≤ 1 → (lineToSimulator line).udid = "") ∧
    (∀ line, ((splitPipes line).map trimStr).length ≤ 2 → (lineToSimulator line).state = "") ∧
    (∀ line, ((splitPipes line).map trimStr).length ≤ 3 → (lineToSimulator line).type = "") ∧
    (∀ line, ((splitPipes line).map trimStr).length ≤ 4 →
      (lineToSimulator line).os_version = "") := by
  refine ⟨?_, ?_, fun line hl => ?_, fun line hl => ?_, fun line hl => ?_, fun line hl => ?_⟩
  · rw [parseListTargets, List.length_map]
  · intro sim hs
    rw [parseListTargets] at hs
    obtain ⟨line, hl, rfl⟩ := List.mem_map.mp hs
    refine ⟨line, (List.mem_filter.mp hl).1, ?_, rfl⟩
    simpa using (List.mem_filter.mp hl).2
  all_goals
    simp only [lineToSimulator]
    exact List.getD_eq_default _ _ hl

/-- Concrete `idb list-targets` output for the C9 witness: one full line, one
blank line, one line with no separators. -/
def demoListing : String :=
  "iPhone 15 | UD-1 | Booted | simulator | iOS 17.0\n\nsolo"

/-- Witness for C9 on the concrete listing: the blank line is dropped, every
parsed record comes from a non-blank line, and a line with no `|` gets empty
defaults in all later columns. -/
theorem parse_list_targets_total_witness :
    (parseListTargets demoListing).length =
      ((splitLines demoListing).filter fun l => trimStr l ≠ "").length ∧
    (∃ line ∈ splitLines demoListing, trimStr line ≠ "" ∧
      lineToSimulator "solo" = lineToSimulator line) ∧
    (lineToSimulator "solo").udid = "" ∧
    (lineToSimulator "solo").state = "" ∧
    (lineToSimulator "solo").type = "" ∧
    (lineToSimulator "solo").os_version = "" :=
  ⟨(parse_list_targets_total demoListing).1,
   (parse_list_targets_total demoListing).2.1 (lineToSimulator "solo") (by decide),
   (parse_list_targets_total demoListing).2.2.1 "solo" (by decide),
   (parse_list_targets_total demoListing).2.2.2.1 "solo" (by decide),
   (parse_list_targets_total demoListing).2.2.2.2.1 "solo" (by decide),
   (parse_list_targets_total demoListing).2.2.2.2.2 "solo" (by decide)⟩

/-! ## C10 -/

/-- C10: every element record produced by `describeScreen` either has a
truthy (non-null, non-empty) label or has one of the fixed kept types, and it
is some pre-order node of the parsed tree with its child list stripped. -/
theorem describe_screen_element_invariant (rt : RawTop) (el : UIElement)
    (h : el ∈ describeScreen rt) :
    ((∃ s, el.label = some s ∧ s ≠ "") ∨ el.type ∈ keptTypes) ∧
    ∃ n ∈ preorderForest (parseTop rt), el = stripChildren n := by
  rw [describeScreen, flattenElements_eq_preorder] at h
  obtain ⟨n, hn, rfl⟩ := List.mem_map.mp h
  have hmem := (List.mem_filter.mp hn).1
  have hk := (List.mem_filter.mp hn).2
  refine ⟨?_, n, hmem, rfl⟩
  rw [keepElem, Bool.or_eq_true] at hk
  cases n with
  | mk t l v f e c =>
    rcases hk with hl | ht
    · left
      cases l with
      | none => simp [strTruthy, PElem.label] at hl
      | some s =>
        refine ⟨s, rfl, ?_⟩
        simpa [strTruthy, PElem.label] using hl
    · right
      simpa [stripChildren, PElem.type] using ht

/-- Concrete raw `describe-all` output for the C10 witness: a window node
(no label, unkept type) whose child is a kept button. -/
def demoRaw : RawTop :=
  .arr [.mk none (some "AXWindow") none none (some ⟨0, 0, 390, 844⟩) none
    (some [.mk (some "Button") none (some "Sign In") none (some ⟨147, 400, 100, 50⟩)
      (some true) none])]

theorem demoRaw_describe : describeScreen demoRaw = [demoSignIn] := by
  simp [demoRaw, describeScreen, parseTop, parseForest, parseElement, jsOrStr, jsOrNull,
    flattenElements, keepElem, strTruthy, PElem.label, PElem.type, keptTypes,
    stripChildren, demoSignIn]

/-- Witness for C10 on the concrete raw tree: the flattened button satisfies
the invariant and is a stripped pre-order node. -/
theorem describe_screen_element_invariant_witness :
    ((∃ s, demoSignIn.label = some s ∧ s ≠ "") ∨ demoSignIn.type ∈ keptTypes) ∧
    ∃ n ∈ preorderForest (parseTop demoRaw), demoSignIn = stripChildren n :=
  describe_screen_element_invariant demoRaw demoSignIn
    (by rw [demoRaw_describe]; exact List.mem_cons_self _ _)
